import Mathlib

/-!
Shallow embedding of `ceph_volume/devices/lvm/prepare.py`:
the `prepare_filestore` / `prepare_bluestore` orchestration functions and the
`Prepare` class (`get_ptuuid`, `get_lv`, `setup_device`, `prepare`).

External collaborators (LVM api, blkid, conf, id registration, ...) are
modelled as a read-only environment `Env`; the mutating primitive calls they
perform are recorded as an ordered trace of `Event`s.  Python dicts of string
tags are modelled as ordered association lists with Python's
overwrite-in-place semantics.
-/

/-- A logical volume as returned by `api.get_lv` / `api.create_lv`:
only the fields the fragment reads. -/
structure LV where
  lv_uuid : String
  lv_path : String
deriving DecidableEq, Repr

/-- Python's truthiness on an optional string: `None` and `''` are falsy. -/
def pyStr : Option String → Option String
  | none => none
  | some s => if s = "" then none else some s

/-- `x or d` in Python, for an optional-string `x` and string default `d`. -/
def pyOr (x : Option String) (d : String) : String :=
  (pyStr x).getD d

/-- The tag dictionary: ordered string-keyed mapping, Python dict semantics. -/
def Tags := List (String × String)
deriving DecidableEq, Repr

/-- `tags[k] = v`: overwrite in place when the key exists, append otherwise
(Python dict insertion-order semantics). -/
def setTag : Tags → String → String → Tags
  | [], k, v => [(k, v)]
  | (k', v') :: rest, k, v =>
      if k' = k then (k, v) :: rest else (k', v') :: setTag rest k v

/-- Key membership / lookup in a tag dictionary. -/
def lookupTag (t : Tags) (k : String) : Option String :=
  match t with
  | [] => none
  | (k', v) :: rest => if k' = k then some v else lookupTag rest k

/-- Mutating calls to external primitives, in invocation order. -/
inductive Event where
  | createId (fsid : String) (jsonSecrets : String)
  | createVG (vgName : String) (device : String)
  | createLV (lvName : String) (vgName : String) (tags : Tags)
  | setLVTags (lv : LV) (tags : Tags)
  | createOsdPath (osdId : String) (tmpfs : Bool)
  | formatDevice (device : String)
  | mountOsd (device : String) (osdId : String)
  | linkJournal (journal : String) (osdId : String)
  | linkBlock (block : String) (osdId : String)
  | linkWal (wal : String) (osdId : String)
  | linkDb (db : String) (osdId : String)
  | getMonmap (osdId : String)
  | osdMkfsFilestore (osdId : String) (fsid : String)
  | osdMkfsBluestore (osdId : String) (fsid : String) (keyring : String)
  | writeKeyring (osdId : String) (key : String)
deriving DecidableEq, Repr

/-- Read-only view of the external world: query collaborators and the fresh
values the nondeterministic generators would produce in this invocation.
`is_root` is the privilege state consulted by the `needs_root` decorator. -/
structure Env where
  /-- `api.get_lv(lv_name, vg_name)`, keyed here as (vg_name, lv_name). -/
  lvs : String → String → Option LV
  /-- `disk.get_partuuid(device)`; empty string when blkid finds nothing. -/
  partuuid : String → String
  /-- `disk.is_partition(arg)`. -/
  is_partition : String → Bool
  /-- `disk.is_device(arg)`. -/
  is_device : String → Bool
  /-- truthiness of `api.get_vg(vg_name)`. -/
  vg_exists : String → Bool
  /-- the LV object `api.create_lv(name, vg, ...)` returns. -/
  create_lv_result : String → String → LV
  /-- the id `prepare_utils.create_id(fsid, json_secrets)` returns. -/
  create_id_result : String → String → String
  /-- `conf.ceph.get('global', 'fsid')`. -/
  cluster_fsid : String
  /-- `system.generate_uuid()` inside `Prepare.prepare`. -/
  fresh_uuid : String
  /-- `str(uuid.uuid4())` for the fallback volume-group name. -/
  fresh_uuid4 : String
  /-- `prepare_utils.create_key()` inside `Prepare.prepare`. -/
  fresh_key : String
  /-- `prepare_utils.create_key()` default inside the orchestrators. -/
  fresh_key2 : String
  /-- `system.generate_uuid()` inside the orchestrators. -/
  fresh_uuid2 : String
  /-- Modelled from the spec: the privilege state that the `needs_root`
  decorator (not part of this fragment) consults before any side effect. -/
  is_root : Bool

/-- The secrets dict built in `Prepare.prepare`; the only key the fragment
ever uses is `cephx_secret`. -/
structure Secrets where
  cephx_secret : Option String
deriving DecidableEq, Repr

/-- `json.dumps(secrets)` for the one-key secrets dict. -/
def Secrets.dumps (s : Secrets) : String :=
  match s.cephx_secret with
  | some v => "\x7b\"cephx_secret\": \"" ++ v ++ "\"\x7d"
  | none => "\x7b\x7d"

/-- `secrets.get('cephx_secret', default)`. -/
def Secrets.getCephx (s : Secrets) (dflt : String) : String :=
  s.cephx_secret.getD dflt

/-- `Prepare.get_ptuuid`: probe blkid for a PARTUUID; a falsy result raises
`RuntimeError('unable to use device')`. -/
def get_ptuuid (env : Env) (argument : String) : Except String String :=
  let uuid := env.partuuid argument
  if uuid = "" then .error "unable to use device" else .ok uuid

/-- Python's `s.split('/')` on a character list: every separator occurrence
splits, empty pieces are preserved (`''.split('/') == ['']`). -/
def splitSlash : List Char → List (List Char)
  | [] => [[]]
  | c :: cs =>
      let r := splitSlash cs
      if c = '/' then [] :: r
      else
        match r with
        | [] => [[c]]
        | piece :: rest => (c :: piece) :: rest

/-- The `vg_name, lv_name = argument.split('/')` step of `Prepare.get_lv`:
`None` unless the split yields exactly two parts. -/
def splitVgLv (argument : String) : Option (String × String) :=
  match (splitSlash argument.data).map String.mk with
  | [vg, lv] => some (vg, lv)
  | _ => none

/-- `Prepare.get_lv`: parse the argument as `vg/lv` and look the volume up. -/
def get_lv (env : Env) (argument : String) : Option LV :=
  match splitVgLv argument with
  | none => none
  | some (vg, lv) => env.lvs vg lv

/-- `Prepare.setup_device(device_type, device_name, tags)`.
Returns Python's `(path, uuid, tags)` triple (or the raised error) paired
with the trace of mutating calls it made. -/
def setup_device (env : Env) (device_type : String) (device_name : Option String)
    (tags : Tags) : Except String (String × String × Tags) × List Event :=
  match device_name with
  | none => (.ok ("", "", tags), [])
  | some name =>
    let tags := setTag tags "ceph.type" device_type
    match get_lv env name with
    | some lv =>
        let tags := setTag tags ("ceph." ++ device_type ++ "_uuid") lv.lv_uuid
        let tags := setTag tags ("ceph." ++ device_type ++ "_device") lv.lv_path
        (.ok (lv.lv_path, lv.lv_uuid, tags), [Event.setLVTags lv tags])
    | none =>
        match get_ptuuid env name with
        | .error e => (.error e, [])
        | .ok uuid => (.ok (name, uuid, tags), [])

/-- Lines 135-137 of `Prepare.prepare`: compute `osd_fsid` and `osd_id`,
reusing supplied values and otherwise generating / registering fresh ones.
Returns `(osd_fsid, osd_id, trace)`. -/
def allocate_identity (env : Env) (suppliedId suppliedFsid : Option String)
    (jsonSecrets : String) : String × String × List Event :=
  let osd_fsid := pyOr suppliedFsid env.fresh_uuid
  match pyStr suppliedId with
  | some i => (osd_fsid, i, [])
  | none => (osd_fsid, env.create_id_result osd_fsid jsonSecrets,
             [Event.createId osd_fsid jsonSecrets])

/-- Module-level `prepare_filestore(device, journal, secrets, id_, fsid)`:
its trace of primitive calls. -/
def prepare_filestore (env : Env) (device journal : String) (secrets : Secrets)
    (id_ fsid : Option String) : List Event :=
  let cephx_secret := secrets.getCephx env.fresh_key2
  let json_secrets := secrets.dumps
  let fsid := pyOr fsid env.fresh_uuid2
  let idStep : String × List Event :=
    match pyStr id_ with
    | some i => (i, [])
    | none => (env.create_id_result fsid json_secrets,
               [Event.createId fsid json_secrets])
  let osd_id := idStep.1
  idStep.2 ++
  [Event.createOsdPath osd_id false,
   Event.formatDevice device,
   Event.mountOsd device osd_id,
   Event.linkJournal journal osd_id,
   Event.getMonmap osd_id,
   Event.osdMkfsFilestore osd_id fsid,
   Event.writeKeyring osd_id cephx_secret]

/-- Module-level `prepare_bluestore(block, wal, db, secrets, id_, fsid)`:
its trace of primitive calls (`wal`/`db` are linked only when truthy). -/
def prepare_bluestore (env : Env) (block wal db : String) (secrets : Secrets)
    (id_ fsid : Option String) : List Event :=
  let cephx_secret := secrets.getCephx env.fresh_key2
  let json_secrets := secrets.dumps
  let fsid := pyOr fsid env.fresh_uuid2
  let idStep : String × List Event :=
    match pyStr id_ with
    | some i => (i, [])
    | none => (env.create_id_result fsid json_secrets,
               [Event.createId fsid json_secrets])
  let osd_id := idStep.1
  idStep.2 ++
  [Event.createOsdPath osd_id true,
   Event.linkBlock block osd_id] ++
  (if wal ≠ "" then [Event.linkWal wal osd_id] else []) ++
  (if db ≠ "" then [Event.linkDb db osd_id] else []) ++
  [Event.getMonmap osd_id,
   Event.writeKeyring osd_id cephx_secret,
   Event.osdMkfsBluestore osd_id fsid cephx_secret]

/-- The parsed command-line arguments `Prepare.prepare` reads. -/
structure Args where
  osd_fsid : Option String
  osd_id : Option String
  filestore : Bool
  bluestore : Bool
  data : String
  journal : Option String
  block_wal : Option String
  block_db : Option String

/-- The filestore branch of `Prepare.prepare` after the data volume has been
found: the tag-dict literal, journal setup, anchor flush, and the
`prepare_filestore` call. -/
def filestore_tail (env : Env) (args : Args) (secrets : Secrets)
    (cluster_fsid osd_fsid osd_id : String) (data_lv : LV) :
    Except String Unit × List Event :=
  let tags : Tags :=
    [("ceph.osd_fsid", osd_fsid),
     ("ceph.osd_id", osd_id),
     ("ceph.cluster_fsid", cluster_fsid),
     ("ceph.data_device", data_lv.lv_path),
     ("ceph.data_uuid", data_lv.lv_uuid)]
  match setup_device env "journal" args.journal tags with
  | (.error e, evs) => (.error e, evs)
  | (.ok (journal_device, _journal_uuid, tags), evs) =>
    (.ok (), evs ++ [Event.setLVTags data_lv tags] ++
      prepare_filestore env data_lv.lv_path journal_device secrets
        (some osd_id) (some osd_fsid))

/-- The common tail of the bluestore branch of `Prepare.prepare`, from the
tag-dict literal to the `prepare_bluestore` call, given the (found or
freshly created) block LV. -/
def bluestore_tail (env : Env) (args : Args) (secrets : Secrets)
    (cluster_fsid osd_fsid osd_id : String) (block_lv : LV) :
    Except String Unit × List Event :=
  let tags : Tags :=
    [("ceph.osd_fsid", osd_fsid),
     ("ceph.osd_id", osd_id),
     ("ceph.cluster_fsid", cluster_fsid),
     ("ceph.block_device", block_lv.lv_path),
     ("ceph.block_uuid", block_lv.lv_uuid)]
  match setup_device env "wal" args.block_wal tags with
  | (.error e, evs) => (.error e, evs)
  | (.ok (wal_device, _wal_uuid, tags), evsW) =>
    match setup_device env "db" args.block_db tags with
    | (.error e, evsD) => (.error e, evsW ++ evsD)
    | (.ok (db_device, _db_uuid, tags), evsD) =>
      (.ok (), evsW ++ evsD ++ [Event.setLVTags block_lv tags] ++
        prepare_bluestore env block_lv.lv_path wal_device db_device secrets
          (some osd_id) (some osd_fsid))

/-- `Prepare.prepare(args)` under the `needs_root` decorator.
Returns the outcome (success or the raised error message) together with the
ordered trace of mutating external calls that happened before returning. -/
def prepare (env : Env) (args : Args) : Except String Unit × List Event :=
  if env.is_root = false then
    (.error "This command needs to be executed with sudo or as root", [])
  else
  let secrets : Secrets := ⟨some env.fresh_key⟩
  let cluster_fsid := env.cluster_fsid
  let alloc := allocate_identity env args.osd_id args.osd_fsid secrets.dumps
  let osd_fsid := alloc.1
  let osd_id := alloc.2.1
  let evId := alloc.2.2
  if args.filestore then
    if pyStr args.journal = none then
      (.error "--journal is required when using --filestore", evId)
    else
      match get_lv env args.data with
      | none => (.error ("no data logical volume found with: " ++ args.data), evId)
      | some data_lv =>
        let tail := filestore_tail env args secrets cluster_fsid osd_fsid osd_id data_lv
        (tail.1, evId ++ tail.2)
  else if args.bluestore then
    match get_lv env args.data with
    | some block_lv =>
      let tail := bluestore_tail env args secrets cluster_fsid osd_fsid osd_id block_lv
      (tail.1, evId ++ tail.2)
    | none =>
      if env.is_partition args.data || env.is_device args.data then
        let vg_name0 := "ceph-" ++ cluster_fsid
        let vg_name :=
          if env.vg_exists vg_name0 then "ceph-" ++ env.fresh_uuid4 else vg_name0
        let block_name := "osd-block-" ++ osd_fsid
        let block_lv := env.create_lv_result block_name vg_name
        let evsMk : List Event :=
          [Event.createVG vg_name args.data,
           Event.createLV block_name vg_name [("ceph.type", "block")]]
        let tail := bluestore_tail env args secrets cluster_fsid osd_fsid osd_id block_lv
        (tail.1, evId ++ evsMk ++ tail.2)
      else
        (.error ("Cannot use device (" ++ args.data ++
                 ") for bluestore.  A vg/lv path or an existing device is needed"),
         evId)
  else (.ok (), evId)

/-- The tag set of the last `set_tags` call in a trace: the flush onto the
anchor (data/block) volume, which both branches of `prepare` perform last. -/
def flushedTags (evs : List Event) : Option Tags :=
  (evs.filterMap fun e =>
    match e with
    | .setLVTags _ t => some t
    | _ => none).getLast?

/-! Helper lemmas about the tag dictionary and string keys. -/

theorem lookupTag_setTag_self (t : Tags) (k v : String) :
    lookupTag (setTag t k v) k = some v := by
  induction t with
  | nil => simp [setTag, lookupTag]
  | cons p rest ih =>
    obtain ⟨a, b⟩ := p
    by_cases h : a = k
    · simp [setTag, h, lookupTag]
    · simp [setTag, h, lookupTag, ih]

theorem lookupTag_setTag_ne (t : Tags) (k v k' : String) (h : k' ≠ k) :
    lookupTag (setTag t k v) k' = lookupTag t k' := by
  induction t with
  | nil => simp [setTag, lookupTag, Ne.symm h]
  | cons p rest ih =>
    obtain ⟨a, b⟩ := p
    by_cases ha : a = k
    · subst ha
      simp [setTag, lookupTag, Ne.symm h]
    · simp [setTag, ha, lookupTag, ih]

theorem string_ne_of_length_ne {a b : String} (h : a.length ≠ b.length) : a ≠ b :=
  fun e => h (congrArg String.length e)

theorem type_key_ne_uuid_key (R : String) :
    ("ceph.type" : String) ≠ "ceph." ++ R ++ "_uuid" := by
  apply string_ne_of_length_ne
  have h1 : ("ceph.type" : String).length = 9 := rfl
  have h2 : ("ceph." : String).length = 5 := rfl
  have h3 : ("_uuid" : String).length = 5 := rfl
  rw [h1, String.length_append, String.length_append, h2, h3]
  omega

theorem type_key_ne_device_key (R : String) :
    ("ceph.type" : String) ≠ "ceph." ++ R ++ "_device" := by
  apply string_ne_of_length_ne
  have h1 : ("ceph.type" : String).length = 9 := rfl
  have h2 : ("ceph." : String).length = 5 := rfl
  have h3 : ("_device" : String).length = 7 := rfl
  rw [h1, String.length_append, String.length_append, h2, h3]
  omega

theorem uuid_key_ne_device_key (R : String) :
    ("ceph." ++ R ++ "_uuid" : String) ≠ "ceph." ++ R ++ "_device" := by
  apply string_ne_of_length_ne
  have h2 : ("ceph." : String).length = 5 := rfl
  have h3 : ("_uuid" : String).length = 5 := rfl
  have h4 : ("_device" : String).length = 7 := rfl
  rw [String.length_append, String.length_append, String.length_append,
      String.length_append, h2, h3, h4]
  omega

/-! Claim theorems. -/

/-- C8: for a role whose argument is absent (`device_name is None`),
`setup_device` returns the pair of empty strings and the tag set unchanged,
performing no mutating call. -/
theorem C8_thm (env : Env) (device_type : String) (tags : Tags) :
    setup_device env device_type none tags = (.ok ("", "", tags), []) := rfl

/-- C4: when the role argument resolves to an existing logical volume,
`setup_device` returns that volume's path and uuid, the returned tag set maps
`ceph.<R>_uuid` / `ceph.<R>_device` to exactly that volume's uuid and path,
and the volume's own tag storage receives (via `lv.set_tags`) that same tag
set, which includes `ceph.type = R`. -/
theorem C4_thm (env : Env) (R name : String) (tags : Tags) (lv : LV)
    (hlv : get_lv env name = some lv) :
    ∃ T : Tags,
      setup_device env R (some name) tags =
        (.ok (lv.lv_path, lv.lv_uuid, T), [Event.setLVTags lv T]) ∧
      lookupTag T ("ceph." ++ R ++ "_uuid") = some lv.lv_uuid ∧
      lookupTag T ("ceph." ++ R ++ "_device") = some lv.lv_path ∧
      lookupTag T "ceph.type" = some R := by
  refine ⟨setTag (setTag (setTag tags "ceph.type" R)
      ("ceph." ++ R ++ "_uuid") lv.lv_uuid)
      ("ceph." ++ R ++ "_device") lv.lv_path, ?_, ?_, ?_, ?_⟩
  · simp [setup_device, hlv]
  · rw [lookupTag_setTag_ne _ _ _ _ (uuid_key_ne_device_key R),
        lookupTag_setTag_self]
  · rw [lookupTag_setTag_self]
  · rw [lookupTag_setTag_ne _ _ _ _ (type_key_ne_device_key R),
        lookupTag_setTag_ne _ _ _ _ (type_key_ne_uuid_key R),
        lookupTag_setTag_self]

/-- Concrete environment for the C4 witness: one known logical volume. -/
def envC4 : Env where
  lvs := fun vg lv =>
    if vg = "vgx" ∧ lv = "lvx" then some ⟨"WUUID", "/dev/vgx/lvx"⟩ else none
  partuuid := fun _ => ""
  is_partition := fun _ => false
  is_device := fun _ => false
  vg_exists := fun _ => false
  create_lv_result := fun _ _ => ⟨"", ""⟩
  create_id_result := fun _ _ => "0"
  cluster_fsid := "CF"
  fresh_uuid := "GU"
  fresh_uuid4 := "G4"
  fresh_key := "K"
  fresh_key2 := "K2"
  fresh_uuid2 := "U2"
  is_root := true

/-- C4 witness: the theorem applied to a concrete environment in which
`vgx/lvx` is an existing logical volume, for the `wal` role. -/
theorem C4_witness :
    ∃ T : Tags,
      setup_device envC4 "wal" (some "vgx/lvx") [] =
        (.ok ("/dev/vgx/lvx", "WUUID", T),
         [Event.setLVTags ⟨"WUUID", "/dev/vgx/lvx"⟩ T]) ∧
      lookupTag T ("ceph." ++ "wal" ++ "_uuid") = some "WUUID" ∧
      lookupTag T ("ceph." ++ "wal" ++ "_device") = some "/dev/vgx/lvx" ∧
      lookupTag T "ceph.type" = some "wal" :=
  C4_thm envC4 "wal" "vgx/lvx" [] ⟨"WUUID", "/dev/vgx/lvx"⟩ rfl

/-- Concrete environment for C2: no logical volume exists anywhere, yet blkid
reports a partition UUID for every argument. -/
def envC2 : Env where
  lvs := fun _ _ => none
  partuuid := fun _ => "PU-7"
  is_partition := fun _ => false
  is_device := fun _ => false
  vg_exists := fun _ => false
  create_lv_result := fun _ _ => ⟨"", ""⟩
  create_id_result := fun _ _ => "0"
  cluster_fsid := "CF"
  fresh_uuid := "GU"
  fresh_uuid4 := "G4"
  fresh_key := "K"
  fresh_key2 := "K2"
  fresh_uuid2 := "U2"
  is_root := true

/-- C2 counterexample: `vg0/lv0` matches the two-part `group/volume` syntax
and no such logical volume exists, yet resolution of the (non-data) journal
role does not fail: the partition-UUID probe path is taken and succeeds,
returning the dangling reference as a raw device with the probed UUID. -/
theorem C2_counterexample :
    splitVgLv "vg0/lv0" = some ("vg0", "lv0") ∧
    get_lv envC2 "vg0/lv0" = none ∧
    setup_device envC2 "journal" (some "vg0/lv0") [] =
      (.ok ("vg0/lv0", "PU-7", [("ceph.type", "journal")]), []) :=
  ⟨rfl, rfl, rfl⟩

/-- C2 (amended): a non-data role argument matching `group/volume` syntax for
which no logical volume exists falls through to the raw-partition path: the
partition-UUID probe is performed, resolution fails (with the probe's
`unable to use device` error) exactly when no partition UUID is discoverable,
and otherwise the dangling reference is accepted as a raw device. -/
theorem C2_thm (env : Env) (dt name vg lvn : String) (tags : Tags)
    (hsplit : splitVgLv name = some (vg, lvn))
    (hnone : env.lvs vg lvn = none) :
    setup_device env dt (some name) tags =
      (if env.partuuid name = "" then
        (.error "unable to use device", [])
      else
        (.ok (name, env.partuuid name, setTag tags "ceph.type" dt), [])) := by
  by_cases h : env.partuuid name = "" <;>
    simp [setup_device, get_lv, hsplit, hnone, get_ptuuid, h]

/-- C2 witness: the amended theorem applied to the concrete environment, for
the `db` role on the dangling reference `vg1/lv1`. -/
theorem C2_witness :
    setup_device envC2 "db" (some "vg1/lv1") [] =
      (if envC2.partuuid "vg1/lv1" = "" then
        (.error "unable to use device", [])
      else
        (.ok ("vg1/lv1", envC2.partuuid "vg1/lv1",
              setTag [] "ceph.type" "db"), [])) :=
  C2_thm envC2 "db" "vg1/lv1" "vg1" "lv1" [] rfl rfl

/-- A default concrete environment for witnesses; individual witnesses
override the fields they exercise. -/
def baseEnv : Env where
  lvs := fun _ _ => none
  partuuid := fun _ => ""
  is_partition := fun _ => false
  is_device := fun _ => false
  vg_exists := fun _ => false
  create_lv_result := fun _ _ => ⟨"", ""⟩
  create_id_result := fun _ _ => "0"
  cluster_fsid := "CF"
  fresh_uuid := "GU"
  fresh_uuid4 := "G4"
  fresh_key := "K"
  fresh_key2 := "K2"
  fresh_uuid2 := "U2"
  is_root := true

/-- A default argument record for witnesses. -/
def argsBase : Args where
  osd_fsid := none
  osd_id := none
  filestore := true
  bluestore := false
  data := "vg/lv"
  journal := none
  block_wal := none
  block_db := none

/-- C9: the whole prepare operation is gated by the privilege precondition:
when it fails, the operation aborts with the privilege error and an empty
trace — no directory, format, mount, tag write or collaborator call. -/
theorem C9_thm (env : Env) (args : Args) (h : env.is_root = false) :
    prepare env args =
      (.error "This command needs to be executed with sudo or as root", []) := by
  simp [prepare, h]

/-- C9 witness: the theorem applied to a concrete non-root environment. -/
theorem C9_witness :
    prepare { baseEnv with is_root := false } argsBase =
      (.error "This command needs to be executed with sudo or as root", []) :=
  C9_thm { baseEnv with is_root := false } argsBase rfl

/-! Lemmas: no branch of `setup_device` or of the orchestrators called with a
supplied id ever invokes the identity-registration collaborator. -/

theorem createId_notMem_setup (env : Env) (dt : String) (dn : Option String)
    (tags : Tags) (f s : String) :
    Event.createId f s ∉ (setup_device env dt dn tags).2 := by
  cases dn with
  | none => simp [setup_device]
  | some name =>
    cases h : get_lv env name with
    | some lv => simp [setup_device, h]
    | none =>
      cases h2 : get_ptuuid env name with
      | error e => simp [setup_device, h, h2]
      | ok u => simp [setup_device, h, h2]

theorem createId_notMem_prepare_filestore (env : Env) (dev j : String)
    (sec : Secrets) (i : String) (fsid : Option String) (f s : String)
    (hi : i ≠ "") :
    Event.createId f s ∉ prepare_filestore env dev j sec (some i) fsid := by
  simp [prepare_filestore, pyStr, hi]

theorem createId_notMem_prepare_bluestore (env : Env) (b w d : String)
    (sec : Secrets) (i : String) (fsid : Option String) (f s : String)
    (hi : i ≠ "") :
    Event.createId f s ∉ prepare_bluestore env b w d sec (some i) fsid := by
  by_cases hw : w = "" <;> by_cases hd : d = "" <;>
    simp [prepare_bluestore, pyStr, hi, hw, hd]

theorem createId_notMem_bluestore_tail (env : Env) (args : Args) (sec : Secrets)
    (cf f i : String) (blv : LV) (fs ss : String) (hi : i ≠ "") :
    Event.createId fs ss ∉ (bluestore_tail env args sec cf f i blv).2 := by
  simp only [bluestore_tail]
  rcases hW : setup_device env "wal" args.block_wal
      [("ceph.osd_fsid", f), ("ceph.osd_id", i), ("ceph.cluster_fsid", cf),
       ("ceph.block_device", blv.lv_path), ("ceph.block_uuid", blv.lv_uuid)]
    with ⟨rW, evW⟩
  have hWe : Event.createId fs ss ∉ evW := by
    have h := createId_notMem_setup env "wal" args.block_wal
      [("ceph.osd_fsid", f), ("ceph.osd_id", i), ("ceph.cluster_fsid", cf),
       ("ceph.block_device", blv.lv_path), ("ceph.block_uuid", blv.lv_uuid)] fs ss
    rwa [hW] at h
  rcases rW with e | ⟨wal_device, wal_uuid, tagsW⟩
  · simpa using hWe
  · dsimp only
    rcases hD : setup_device env "db" args.block_db tagsW with ⟨rD, evD⟩
    have hDe : Event.createId fs ss ∉ evD := by
      have h := createId_notMem_setup env "db" args.block_db tagsW fs ss
      rwa [hD] at h
    rcases rD with e | ⟨db_device, db_uuid, tagsD⟩
    · simp [hWe, hDe]
    · simp [hWe, hDe,
        createId_notMem_prepare_bluestore env blv.lv_path wal_device db_device
          sec i (some f) fs ss hi]

theorem createId_notMem_filestore_tail (env : Env) (args : Args) (sec : Secrets)
    (cf f i : String) (dlv : LV) (fs ss : String) (hi : i ≠ "") :
    Event.createId fs ss ∉ (filestore_tail env args sec cf f i dlv).2 := by
  simp only [filestore_tail]
  rcases hJ : setup_device env "journal" args.journal
      [("ceph.osd_fsid", f), ("ceph.osd_id", i), ("ceph.cluster_fsid", cf),
       ("ceph.data_device", dlv.lv_path), ("ceph.data_uuid", dlv.lv_uuid)]
    with ⟨rJ, evJ⟩
  have hJe : Event.createId fs ss ∉ evJ := by
    have h := createId_notMem_setup env "journal" args.journal
      [("ceph.osd_fsid", f), ("ceph.osd_id", i), ("ceph.cluster_fsid", cf),
       ("ceph.data_device", dlv.lv_path), ("ceph.data_uuid", dlv.lv_uuid)] fs ss
    rwa [hJ] at h
  rcases rJ with e | ⟨journal_device, journal_uuid, tagsJ⟩
  · simpa using hJe
  · simp [hJe,
      createId_notMem_prepare_filestore env dlv.lv_path journal_device sec i
        (some f) fs ss hi]

theorem createId_notMem_prepare (env : Env) (args : Args) (i : String)
    (hid : args.osd_id = some i) (hi : i ≠ "") (f s : String) :
    Event.createId f s ∉ (prepare env args).2 := by
  by_cases hroot : env.is_root
  · have halloc : allocate_identity env args.osd_id args.osd_fsid
        (Secrets.dumps ⟨some env.fresh_key⟩) =
        (pyOr args.osd_fsid env.fresh_uuid, i, []) := by
      simp [allocate_identity, hid, pyStr, hi]
    have hFT : ∀ dlv : LV, Event.createId f s ∉
        (filestore_tail env args ⟨some env.fresh_key⟩ env.cluster_fsid
          (pyOr args.osd_fsid env.fresh_uuid) i dlv).2 :=
      fun dlv => createId_notMem_filestore_tail env args ⟨some env.fresh_key⟩
        env.cluster_fsid (pyOr args.osd_fsid env.fresh_uuid) i dlv f s hi
    have hBT : ∀ blv : LV, Event.createId f s ∉
        (bluestore_tail env args ⟨some env.fresh_key⟩ env.cluster_fsid
          (pyOr args.osd_fsid env.fresh_uuid) i blv).2 :=
      fun blv => createId_notMem_bluestore_tail env args ⟨some env.fresh_key⟩
        env.cluster_fsid (pyOr args.osd_fsid env.fresh_uuid) i blv f s hi
    by_cases hf : args.filestore
    · by_cases hj : pyStr args.journal = none
      · simp [prepare, hroot, hf, hj, halloc]
      · cases hd : get_lv env args.data with
        | none => simp [prepare, hroot, hf, hj, hd, halloc]
        | some dlv => simp [prepare, hroot, hf, hj, hd, halloc, hFT]
    · by_cases hb : args.bluestore
      · cases hd : get_lv env args.data with
        | some blv => simp [prepare, hroot, hf, hb, hd, halloc, hBT]
        | none =>
          by_cases hp : (env.is_partition args.data || env.is_device args.data) = true
          · simp [prepare, hroot, hf, hb, hd, hp, halloc, hBT]
          · simp [prepare, hroot, hf, hb, hd, hp, halloc]
      · simp [prepare, hroot, hf, hb, halloc]
  · simp [prepare, hroot]

/-- C6: identity allocation is resume-stable.  Supplied non-empty id and
fsid are carried through exactly, with no generation and no registration
call; an absent fsid is replaced by the freshly generated UUID; an absent id
is obtained by calling the registration collaborator with the (possibly
fresh) fsid and the serialized secret bundle; and a `prepare` invocation
with a supplied non-empty id never emits a registration call anywhere. -/
theorem C6_thm :
    (∀ (env : Env) (i f j : String), i ≠ "" → f ≠ "" →
      allocate_identity env (some i) (some f) j = (f, i, [])) ∧
    (∀ (env : Env) (i j : String), i ≠ "" →
      allocate_identity env (some i) none j = (env.fresh_uuid, i, [])) ∧
    (∀ (env : Env) (f j : String), f ≠ "" →
      allocate_identity env none (some f) j =
        (f, env.create_id_result f j, [Event.createId f j])) ∧
    (∀ (env : Env) (j : String),
      allocate_identity env none none j =
        (env.fresh_uuid, env.create_id_result env.fresh_uuid j,
         [Event.createId env.fresh_uuid j])) ∧
    (∀ (env : Env) (args : Args) (i f s : String),
      args.osd_id = some i → i ≠ "" →
      Event.createId f s ∉ (prepare env args).2) := by
  refine ⟨?_, ?_, ?_, ?_, ?_⟩
  · intro env i f j hi hf
    simp [allocate_identity, pyOr, pyStr, hi, hf]
  · intro env i j hi
    simp [allocate_identity, pyOr, pyStr, hi]
  · intro env f j hf
    simp [allocate_identity, pyOr, pyStr, hf]
  · intro env j
    simp [allocate_identity, pyOr, pyStr]
  · intro env args i f s hid hi
    exact createId_notMem_prepare env args i hid hi f s

/-- Argument record with a supplied id and fsid, for the C6 witness. -/
def argsC6 : Args :=
  { argsBase with osd_id := some "3", osd_fsid := some "F1" }

/-- C6 witness: each conjunct of the theorem applied at concrete inputs. -/
theorem C6_witness :
    allocate_identity baseEnv (some "3") (some "F1") "J" = ("F1", "3", []) ∧
    allocate_identity baseEnv (some "3") none "J" = (baseEnv.fresh_uuid, "3", []) ∧
    allocate_identity baseEnv none (some "F1") "J" =
      ("F1", baseEnv.create_id_result "F1" "J", [Event.createId "F1" "J"]) ∧
    allocate_identity baseEnv none none "J" =
      (baseEnv.fresh_uuid, baseEnv.create_id_result baseEnv.fresh_uuid "J",
       [Event.createId baseEnv.fresh_uuid "J"]) ∧
    Event.createId "F1" "S" ∉ (prepare baseEnv argsC6).2 :=
  ⟨C6_thm.1 baseEnv "3" "F1" "J" (by decide) (by decide),
   C6_thm.2.1 baseEnv "3" "J" (by decide),
   C6_thm.2.2.1 baseEnv "F1" "J" (by decide),
   C6_thm.2.2.2.1 baseEnv "J",
   C6_thm.2.2.2.2 baseEnv argsC6 "3" "F1" "S" rfl (by decide)⟩

/-- C7: each orchestrator variant drives its external primitives in exactly
the specified fixed order.  With a supplied id and fsid (as when called from
`Prepare.prepare`): filestore creates the directory, formats the data
device, mounts it, links the journal, fetches the monmap, initializes the
filesystem, and persists the keyring last; bluestore creates the volatile
(tmpfs) directory, links block then wal then db (each of the latter two only
when supplied), fetches the monmap, persists the keyring, and initializes
the on-disk structures last, passing (id, fsid, keyring). -/
theorem C7_thm :
    (∀ (env : Env) (device journal : String) (secrets : Secrets) (i f : String),
      i ≠ "" → f ≠ "" →
      prepare_filestore env device journal secrets (some i) (some f) =
        [Event.createOsdPath i false,
         Event.formatDevice device,
         Event.mountOsd device i,
         Event.linkJournal journal i,
         Event.getMonmap i,
         Event.osdMkfsFilestore i f,
         Event.writeKeyring i (secrets.getCephx env.fresh_key2)]) ∧
    (∀ (env : Env) (block wal db : String) (secrets : Secrets) (i f : String),
      i ≠ "" → f ≠ "" →
      prepare_bluestore env block wal db secrets (some i) (some f) =
        [Event.createOsdPath i true, Event.linkBlock block i] ++
        (if wal ≠ "" then [Event.linkWal wal i] else []) ++
        (if db ≠ "" then [Event.linkDb db i] else []) ++
        [Event.getMonmap i,
         Event.writeKeyring i (secrets.getCephx env.fresh_key2),
         Event.osdMkfsBluestore i f (secrets.getCephx env.fresh_key2)]) := by
  constructor
  · intro env device journal secrets i f hi hf
    simp [prepare_filestore, pyOr, pyStr, hi, hf]
  · intro env block wal db secrets i f hi hf
    simp [prepare_bluestore, pyOr, pyStr, hi, hf]

/-- C7 witness: both variants at concrete inputs (wal supplied, db absent). -/
theorem C7_witness :
    prepare_filestore baseEnv "/dev/d" "/dev/j" ⟨some "CK"⟩ (some "3") (some "F1") =
      [Event.createOsdPath "3" false,
       Event.formatDevice "/dev/d",
       Event.mountOsd "/dev/d" "3",
       Event.linkJournal "/dev/j" "3",
       Event.getMonmap "3",
       Event.osdMkfsFilestore "3" "F1",
       Event.writeKeyring "3" (Secrets.getCephx ⟨some "CK"⟩ baseEnv.fresh_key2)] ∧
    prepare_bluestore baseEnv "/dev/b" "/dev/w" "" ⟨some "CK"⟩ (some "3") (some "F1") =
      [Event.createOsdPath "3" true, Event.linkBlock "/dev/b" "3"] ++
      (if ("/dev/w" : String) ≠ "" then [Event.linkWal "/dev/w" "3"] else []) ++
      (if ("" : String) ≠ "" then [Event.linkDb "" "3"] else []) ++
      [Event.getMonmap "3",
       Event.writeKeyring "3" (Secrets.getCephx ⟨some "CK"⟩ baseEnv.fresh_key2),
       Event.osdMkfsBluestore "3" "F1" (Secrets.getCephx ⟨some "CK"⟩ baseEnv.fresh_key2)] :=
  ⟨C7_thm.1 baseEnv "/dev/d" "/dev/j" ⟨some "CK"⟩ "3" "F1" (by decide) (by decide),
   C7_thm.2 baseEnv "/dev/b" "/dev/w" "" ⟨some "CK"⟩ "3" "F1" (by decide) (by decide)⟩

theorem allocate_identity_events (env : Env) (sid sfs : Option String) (j : String) :
    (allocate_identity env sid sfs j).2.2 = [] ∨
    ∃ a b, (allocate_identity env sid sfs j).2.2 = [Event.createId a b] := by
  cases h : pyStr sid with
  | some i => left; simp [allocate_identity, h]
  | none =>
    right
    exact ⟨pyOr sfs env.fresh_uuid, j, by simp [allocate_identity, h]⟩

/-- C3 counterexample: a legacy invocation without a journal and without a
supplied id raises the journal error only after identity allocation: the
trace already contains the call to the identity-registration collaborator
(`create_id` with the generated fsid and the serialized secrets). -/
theorem C3_counterexample :
    prepare baseEnv argsBase =
      (.error "--journal is required when using --filestore",
       [Event.createId "GU" "\x7b\"cephx_secret\": \"K\"\x7d"]) ∧
    Event.createId "GU" "\x7b\"cephx_secret\": \"K\"\x7d" ∈
      (prepare baseEnv argsBase).2 := by
  refine ⟨rfl, ?_⟩
  have h : (prepare baseEnv argsBase).2 =
      [Event.createId "GU" "\x7b\"cephx_secret\": \"K\"\x7d"] := rfl
  rw [h]
  exact List.mem_singleton.mpr rfl

/-- C3 (amended): a legacy-store invocation without a journal raises the
configuration error before any directory is created and before any tag is
written — the only mutating step that may precede it is identity allocation
(a `create_id` registration call when no id was supplied). -/
theorem C3_thm (env : Env) (args : Args)
    (hroot : env.is_root = true) (hf : args.filestore = true)
    (hj : pyStr args.journal = none) :
    (prepare env args).1 = .error "--journal is required when using --filestore" ∧
    ∀ e ∈ (prepare env args).2, ∃ a b, e = Event.createId a b := by
  have hpre : prepare env args =
      (.error "--journal is required when using --filestore",
       (allocate_identity env args.osd_id args.osd_fsid
          (Secrets.dumps ⟨some env.fresh_key⟩)).2.2) := by
    simp [prepare, hroot, hf, hj]
  refine ⟨by rw [hpre], ?_⟩
  intro e he
  rw [hpre] at he
  rcases allocate_identity_events env args.osd_id args.osd_fsid
      (Secrets.dumps ⟨some env.fresh_key⟩) with h | ⟨a, b, h⟩
  · rw [h] at he; simp at he
  · rw [h] at he
    simp at he
    exact ⟨a, b, he⟩

/-- C3 witness: the amended theorem at the concrete journal-less input. -/
theorem C3_witness :
    (prepare baseEnv argsBase).1 =
      .error "--journal is required when using --filestore" ∧
    ∀ e ∈ (prepare baseEnv argsBase).2, ∃ a b, e = Event.createId a b :=
  C3_thm baseEnv argsBase rfl rfl rfl

/-- Concrete environment for C1: the spec's worked example — cluster fsid
`C1`, an existing data volume `vgdata/lvdata`, and `/dev/sdb1` a raw
partition with a probeable PARTUUID. -/
def envC1 : Env :=
  { baseEnv with
    lvs := fun vg lv =>
      if vg = "vgdata" ∧ lv = "lvdata" then
        some ⟨"LVUUID", "/dev/vgdata/lvdata"⟩
      else none
    partuuid := fun d => if d = "/dev/sdb1" then "PU-1" else ""
    cluster_fsid := "C1" }

/-- Arguments for C1: the spec's worked legacy example with supplied id and
fsid. -/
def argsC1 : Args :=
  { argsBase with
    osd_fsid := some "F1"
    osd_id := some "3"
    data := "vgdata/lvdata"
    journal := some "/dev/sdb1" }

/-- C1 counterexample: in the spec's own worked example (existing data LV,
raw journal partition), the invocation succeeds but the tag set flushed to
the anchor volume contains NO `ceph.journal_device` / `ceph.journal_uuid`
keys — the raw journal contributes nothing to the flushed set. -/
theorem C1_counterexample :
    (prepare envC1 argsC1).1 = .ok () ∧
    flushedTags (prepare envC1 argsC1).2 =
      some [("ceph.osd_fsid", "F1"), ("ceph.osd_id", "3"),
            ("ceph.cluster_fsid", "C1"),
            ("ceph.data_device", "/dev/vgdata/lvdata"),
            ("ceph.data_uuid", "LVUUID"),
            ("ceph.type", "journal")] ∧
    (flushedTags (prepare envC1 argsC1).2).map
        (fun t => (lookupTag t "ceph.journal_device",
                   lookupTag t "ceph.journal_uuid")) =
      some (none, none) :=
  ⟨rfl, rfl, rfl⟩

/-- C1 (amended): in a legacy invocation with an existing data logical
volume and a raw journal partition, the flushed anchor tag set carries the
unit fsid, unit id, cluster fsid, both data keys and `ceph.type = journal`,
but no `journal_device`/`journal_uuid` keys; the raw journal path is only
returned to the orchestrator, which links it.  (Only roles resolved as
logical volumes contribute their `<role>_device`/`<role>_uuid` keys.) -/
theorem C1_thm (env : Env) (args : Args) (dlv : LV) (i f jn : String)
    (hroot : env.is_root = true) (hf : args.filestore = true)
    (hid : args.osd_id = some i) (hi : i ≠ "")
    (hfs : args.osd_fsid = some f) (hfne : f ≠ "")
    (hj : args.journal = some jn) (hjne : jn ≠ "")
    (hdata : get_lv env args.data = some dlv)
    (hjlv : get_lv env jn = none)
    (hpu : env.partuuid jn ≠ "") :
    (prepare env args).1 = .ok () ∧
    flushedTags (prepare env args).2 =
      some [("ceph.osd_fsid", f), ("ceph.osd_id", i),
            ("ceph.cluster_fsid", env.cluster_fsid),
            ("ceph.data_device", dlv.lv_path),
            ("ceph.data_uuid", dlv.lv_uuid),
            ("ceph.type", "journal")] ∧
    lookupTag [("ceph.osd_fsid", f), ("ceph.osd_id", i),
            ("ceph.cluster_fsid", env.cluster_fsid),
            ("ceph.data_device", dlv.lv_path),
            ("ceph.data_uuid", dlv.lv_uuid),
            ("ceph.type", "journal")] "ceph.journal_device" = none ∧
    lookupTag [("ceph.osd_fsid", f), ("ceph.osd_id", i),
            ("ceph.cluster_fsid", env.cluster_fsid),
            ("ceph.data_device", dlv.lv_path),
            ("ceph.data_uuid", dlv.lv_uuid),
            ("ceph.type", "journal")] "ceph.journal_uuid" = none ∧
    Event.linkJournal jn i ∈ (prepare env args).2 := by
  have hrun : prepare env args =
      (.ok (), Event.setLVTags dlv
        [("ceph.osd_fsid", f), ("ceph.osd_id", i),
         ("ceph.cluster_fsid", env.cluster_fsid),
         ("ceph.data_device", dlv.lv_path),
         ("ceph.data_uuid", dlv.lv_uuid),
         ("ceph.type", "journal")] ::
        prepare_filestore env dlv.lv_path jn ⟨some env.fresh_key⟩
          (some i) (some f)) := by
    simp [prepare, filestore_tail, setup_device, get_ptuuid,
      allocate_identity, pyOr, pyStr, setTag,
      hroot, hf, hid, hi, hfs, hfne, hj, hjne, hdata, hjlv, hpu]
  refine ⟨by rw [hrun], ?_, rfl, rfl, ?_⟩
  · rw [hrun]
    simp [flushedTags, prepare_filestore, pyOr, pyStr, hi, hfne]
  · rw [hrun]
    simp [prepare_filestore, pyOr, pyStr, hi, hfne]

/-- C1 witness: the amended theorem at the spec's worked example. -/
theorem C1_witness :
    (prepare envC1 argsC1).1 = .ok () ∧
    flushedTags (prepare envC1 argsC1).2 =
      some [("ceph.osd_fsid", "F1"), ("ceph.osd_id", "3"),
            ("ceph.cluster_fsid", "C1"),
            ("ceph.data_device", "/dev/vgdata/lvdata"),
            ("ceph.data_uuid", "LVUUID"),
            ("ceph.type", "journal")] ∧
    lookupTag [("ceph.osd_fsid", "F1"), ("ceph.osd_id", "3"),
            ("ceph.cluster_fsid", "C1"),
            ("ceph.data_device", "/dev/vgdata/lvdata"),
            ("ceph.data_uuid", "LVUUID"),
            ("ceph.type", "journal")] "ceph.journal_device" = none ∧
    lookupTag [("ceph.osd_fsid", "F1"), ("ceph.osd_id", "3"),
            ("ceph.cluster_fsid", "C1"),
            ("ceph.data_device", "/dev/vgdata/lvdata"),
            ("ceph.data_uuid", "LVUUID"),
            ("ceph.type", "journal")] "ceph.journal_uuid" = none ∧
    Event.linkJournal "/dev/sdb1" "3" ∈ (prepare envC1 argsC1).2 :=
  C1_thm envC1 argsC1 ⟨"LVUUID", "/dev/vgdata/lvdata"⟩ "3" "F1" "/dev/sdb1"
    rfl rfl rfl (by decide) rfl (by decide) rfl (by decide) rfl rfl (by decide)

/-- Does the event record an `api.create_vg` call. -/
def isCreateVG : Event → Bool
  | .createVG _ _ => true
  | _ => false

/-- Does the event record an `api.create_lv` call. -/
def isCreateLV : Event → Bool
  | .createLV _ _ _ => true
  | _ => false

/-- C5: a modern-store invocation whose data argument is not an existing
logical volume but is a usable raw partition or whole device creates exactly
one volume group and one logical volume: the group named `ceph-` + cluster
fsid, or a randomly generated name when that group already exists; the new
volume is created tagged `ceph.type = block`, and the flushed anchor tag set
points `ceph.block_device`/`ceph.block_uuid` at it.  When the argument is
neither an existing volume nor a usable raw device, the invocation fails
with an error naming the input. -/
theorem C5_thm :
    (∀ (env : Env) (args : Args) (i f : String),
      env.is_root = true → args.filestore = false → args.bluestore = true →
      args.osd_id = some i → i ≠ "" → args.osd_fsid = some f → f ≠ "" →
      args.block_wal = none → args.block_db = none →
      get_lv env args.data = none →
      (env.is_partition args.data || env.is_device args.data) = true →
      ((prepare env args).1 = .ok () ∧
       (prepare env args).2.filter isCreateVG =
         [Event.createVG
            (if env.vg_exists ("ceph-" ++ env.cluster_fsid)
             then "ceph-" ++ env.fresh_uuid4
             else "ceph-" ++ env.cluster_fsid) args.data] ∧
       (prepare env args).2.filter isCreateLV =
         [Event.createLV ("osd-block-" ++ f)
            (if env.vg_exists ("ceph-" ++ env.cluster_fsid)
             then "ceph-" ++ env.fresh_uuid4
             else "ceph-" ++ env.cluster_fsid)
            [("ceph.type", "block")]] ∧
       flushedTags (prepare env args).2 =
         some [("ceph.osd_fsid", f), ("ceph.osd_id", i),
               ("ceph.cluster_fsid", env.cluster_fsid),
               ("ceph.block_device",
                (env.create_lv_result ("osd-block-" ++ f)
                  (if env.vg_exists ("ceph-" ++ env.cluster_fsid)
                   then "ceph-" ++ env.fresh_uuid4
                   else "ceph-" ++ env.cluster_fsid)).lv_path),
               ("ceph.block_uuid",
                (env.create_lv_result ("osd-block-" ++ f)
                  (if env.vg_exists ("ceph-" ++ env.cluster_fsid)
                   then "ceph-" ++ env.fresh_uuid4
                   else "ceph-" ++ env.cluster_fsid)).lv_uuid)])) ∧
    (∀ (env : Env) (args : Args),
      env.is_root = true → args.filestore = false → args.bluestore = true →
      get_lv env args.data = none →
      env.is_partition args.data = false → env.is_device args.data = false →
      prepare env args =
        (.error ("Cannot use device (" ++ args.data ++
           ") for bluestore.  A vg/lv path or an existing device is needed"),
         (allocate_identity env args.osd_id args.osd_fsid
            (Secrets.dumps ⟨some env.fresh_key⟩)).2.2)) := by
  constructor
  · intro env args i f hroot hf hb hid hi hfs hfne hw hd hdata hp
    by_cases hvg : env.vg_exists ("ceph-" ++ env.cluster_fsid)
    all_goals {
      have hrun : prepare env args =
          (.ok (),
           Event.createVG
             (if env.vg_exists ("ceph-" ++ env.cluster_fsid)
              then "ceph-" ++ env.fresh_uuid4
              else "ceph-" ++ env.cluster_fsid) args.data ::
           Event.createLV ("osd-block-" ++ f)
             (if env.vg_exists ("ceph-" ++ env.cluster_fsid)
              then "ceph-" ++ env.fresh_uuid4
              else "ceph-" ++ env.cluster_fsid)
             [("ceph.type", "block")] ::
           Event.setLVTags
             (env.create_lv_result ("osd-block-" ++ f)
               (if env.vg_exists ("ceph-" ++ env.cluster_fsid)
                then "ceph-" ++ env.fresh_uuid4
                else "ceph-" ++ env.cluster_fsid))
             [("ceph.osd_fsid", f), ("ceph.osd_id", i),
              ("ceph.cluster_fsid", env.cluster_fsid),
              ("ceph.block_device",
               (env.create_lv_result ("osd-block-" ++ f)
                 (if env.vg_exists ("ceph-" ++ env.cluster_fsid)
                  then "ceph-" ++ env.fresh_uuid4
                  else "ceph-" ++ env.cluster_fsid)).lv_path),
              ("ceph.block_uuid",
               (env.create_lv_result ("osd-block-" ++ f)
                 (if env.vg_exists ("ceph-" ++ env.cluster_fsid)
                  then "ceph-" ++ env.fresh_uuid4
                  else "ceph-" ++ env.cluster_fsid)).lv_uuid)] ::
           prepare_bluestore env
             (env.create_lv_result ("osd-block-" ++ f)
               (if env.vg_exists ("ceph-" ++ env.cluster_fsid)
                then "ceph-" ++ env.fresh_uuid4
                else "ceph-" ++ env.cluster_fsid)).lv_path
             "" "" ⟨some env.fresh_key⟩ (some i) (some f)) := by
        simp [prepare, bluestore_tail, setup_device, allocate_identity,
          pyOr, pyStr, hroot, hf, hb, hid, hi, hfs, hfne, hw, hd, hdata,
          hp, hvg]
      refine ⟨by rw [hrun], ?_, ?_, ?_⟩ <;>
        rw [hrun] <;>
        simp [prepare_bluestore, pyOr, pyStr, hi, hfne, isCreateVG,
          isCreateLV, flushedTags, hvg]
    }
  · intro env args hroot hf hb hdata hp1 hp2
    simp [prepare, hroot, hf, hb, hdata, hp1, hp2]

/-- Concrete environment for the C5 witness: `/dev/sdc` is a usable whole
device, no logical volumes or volume groups exist. -/
def envC5 : Env :=
  { baseEnv with
    is_device := fun d => d = "/dev/sdc"
    create_lv_result := fun n v => ⟨"NEWU", "/dev/" ++ v ++ "/" ++ n⟩ }

/-- Modern-store arguments over the raw device `/dev/sdc`. -/
def argsC5 : Args :=
  { argsBase with
    filestore := false
    bluestore := true
    osd_id := some "3"
    osd_fsid := some "F1"
    data := "/dev/sdc" }

/-- Modern-store arguments over an unusable input `/dev/sdx`. -/
def argsC5bad : Args :=
  { argsC5 with data := "/dev/sdx" }

/-- C5 witness: both parts of the theorem at concrete inputs. -/
theorem C5_witness :
    ((prepare envC5 argsC5).1 = .ok () ∧
     (prepare envC5 argsC5).2.filter isCreateVG =
       [Event.createVG "ceph-CF" "/dev/sdc"] ∧
     (prepare envC5 argsC5).2.filter isCreateLV =
       [Event.createLV "osd-block-F1" "ceph-CF" [("ceph.type", "block")]] ∧
     flushedTags (prepare envC5 argsC5).2 =
       some [("ceph.osd_fsid", "F1"), ("ceph.osd_id", "3"),
             ("ceph.cluster_fsid", "CF"),
             ("ceph.block_device", "/dev/ceph-CF/osd-block-F1"),
             ("ceph.block_uuid", "NEWU")]) ∧
    prepare envC5 argsC5bad =
      (.error "Cannot use device (/dev/sdx) for bluestore.  A vg/lv path or an existing device is needed",
       []) :=
  ⟨C5_thm.1 envC5 argsC5 "3" "F1" rfl rfl rfl rfl (by decide) rfl (by decide)
     rfl rfl rfl rfl,
   C5_thm.2 envC5 argsC5bad rfl rfl rfl rfl rfl rfl⟩

/-- C10: `setup_device` overwrites the shared `ceph.type` key with the
current role before classifying the argument, so (i) every successful
`setup_device` call leaves `ceph.type` bound to its own role; hence the
anchor flush carries `ceph.type` equal to the LAST non-absent secondary role
resolved: (ii) `journal` for a legacy invocation, (iii) `db`, else `wal`,
for a modern invocation; and (iv) a modern invocation with an existing block
volume and neither wal nor db flushes an anchor tag set containing no
`ceph.type` key at all. -/
theorem C10_thm :
    (∀ (env : Env) (dt name : String) (tags : Tags) (p u : String) (T : Tags),
      (setup_device env dt (some name) tags).1 = .ok (p, u, T) →
      lookupTag T "ceph.type" = some dt) ∧
    (∀ (env : Env) (args : Args) (dlv jlv : LV) (i f jn : String),
      env.is_root = true → args.filestore = true →
      args.osd_id = some i → i ≠ "" → args.osd_fsid = some f → f ≠ "" →
      args.journal = some jn → jn ≠ "" →
      get_lv env args.data = some dlv → get_lv env jn = some jlv →
      flushedTags (prepare env args).2 =
        some [("ceph.osd_fsid", f), ("ceph.osd_id", i),
              ("ceph.cluster_fsid", env.cluster_fsid),
              ("ceph.data_device", dlv.lv_path),
              ("ceph.data_uuid", dlv.lv_uuid),
              ("ceph.type", "journal"),
              ("ceph.journal_uuid", jlv.lv_uuid),
              ("ceph.journal_device", jlv.lv_path)] ∧
      lookupTag [("ceph.osd_fsid", f), ("ceph.osd_id", i),
              ("ceph.cluster_fsid", env.cluster_fsid),
              ("ceph.data_device", dlv.lv_path),
              ("ceph.data_uuid", dlv.lv_uuid),
              ("ceph.type", "journal"),
              ("ceph.journal_uuid", jlv.lv_uuid),
              ("ceph.journal_device", jlv.lv_path)] "ceph.type" =
        some "journal") ∧
    (∀ (env : Env) (args : Args) (blv wlv dblv : LV) (i f wn dn : String),
      env.is_root = true → args.filestore = false → args.bluestore = true →
      args.osd_id = some i → i ≠ "" → args.osd_fsid = some f → f ≠ "" →
      args.block_wal = some wn → wn ≠ "" →
      args.block_db = some dn → dn ≠ "" →
      get_lv env args.data = some blv →
      get_lv env wn = some wlv → get_lv env dn = some dblv →
      flushedTags (prepare env args).2 =
        some [("ceph.osd_fsid", f), ("ceph.osd_id", i),
              ("ceph.cluster_fsid", env.cluster_fsid),
              ("ceph.block_device", blv.lv_path),
              ("ceph.block_uuid", blv.lv_uuid),
              ("ceph.type", "db"),
              ("ceph.wal_uuid", wlv.lv_uuid),
              ("ceph.wal_device", wlv.lv_path),
              ("ceph.db_uuid", dblv.lv_uuid),
              ("ceph.db_device", dblv.lv_path)] ∧
      lookupTag [("ceph.osd_fsid", f), ("ceph.osd_id", i),
              ("ceph.cluster_fsid", env.cluster_fsid),
              ("ceph.block_device", blv.lv_path),
              ("ceph.block_uuid", blv.lv_uuid),
              ("ceph.type", "db"),
              ("ceph.wal_uuid", wlv.lv_uuid),
              ("ceph.wal_device", wlv.lv_path),
              ("ceph.db_uuid", dblv.lv_uuid),
              ("ceph.db_device", dblv.lv_path)] "ceph.type" = some "db") ∧
    (∀ (env : Env) (args : Args) (blv wlv : LV) (i f wn : String),
      env.is_root = true → args.filestore = false → args.bluestore = true →
      args.osd_id = some i → i ≠ "" → args.osd_fsid = some f → f ≠ "" →
      args.block_wal = some wn → wn ≠ "" →
      args.block_db = none →
      get_lv env args.data = some blv → get_lv env wn = some wlv →
      flushedTags (prepare env args).2 =
        some [("ceph.osd_fsid", f), ("ceph.osd_id", i),
              ("ceph.cluster_fsid", env.cluster_fsid),
              ("ceph.block_device", blv.lv_path),
              ("ceph.block_uuid", blv.lv_uuid),
              ("ceph.type", "wal"),
              ("ceph.wal_uuid", wlv.lv_uuid),
              ("ceph.wal_device", wlv.lv_path)] ∧
      lookupTag [("ceph.osd_fsid", f), ("ceph.osd_id", i),
              ("ceph.cluster_fsid", env.cluster_fsid),
              ("ceph.block_device", blv.lv_path),
              ("ceph.block_uuid", blv.lv_uuid),
              ("ceph.type", "wal"),
              ("ceph.wal_uuid", wlv.lv_uuid),
              ("ceph.wal_device", wlv.lv_path)] "ceph.type" = some "wal") ∧
    (∀ (env : Env) (args : Args) (blv : LV) (i f : String),
      env.is_root = true → args.filestore = false → args.bluestore = true →
      args.osd_id = some i → i ≠ "" → args.osd_fsid = some f → f ≠ "" →
      args.block_wal = none → args.block_db = none →
      get_lv env args.data = some blv →
      flushedTags (prepare env args).2 =
        some [("ceph.osd_fsid", f), ("ceph.osd_id", i),
              ("ceph.cluster_fsid", env.cluster_fsid),
              ("ceph.block_device", blv.lv_path),
              ("ceph.block_uuid", blv.lv_uuid)] ∧
      lookupTag [("ceph.osd_fsid", f), ("ceph.osd_id", i),
              ("ceph.cluster_fsid", env.cluster_fsid),
              ("ceph.block_device", blv.lv_path),
              ("ceph.block_uuid", blv.lv_uuid)] "ceph.type" = none) := by
  refine ⟨?_, ?_, ?_, ?_, ?_⟩
  · intro env dt name tags p u T h
    cases hlv : get_lv env name with
    | some lv =>
      simp [setup_device, hlv] at h
      obtain ⟨h1, h2, h3⟩ := h
      rw [← h3,
        lookupTag_setTag_ne _ _ _ _ (type_key_ne_device_key dt),
        lookupTag_setTag_ne _ _ _ _ (type_key_ne_uuid_key dt),
        lookupTag_setTag_self]
    | none =>
      by_cases hp : env.partuuid name = ""
      · simp [setup_device, hlv, get_ptuuid, hp] at h
      · simp [setup_device, hlv, get_ptuuid, hp] at h
        obtain ⟨h1, h2, h3⟩ := h
        rw [← h3, lookupTag_setTag_self]
  · intro env args dlv jlv i f jn hroot hf hid hi hfs hfne hj hjne hdata hjlv
    have hrun : prepare env args =
        (.ok (), Event.setLVTags jlv
          [("ceph.osd_fsid", f), ("ceph.osd_id", i),
           ("ceph.cluster_fsid", env.cluster_fsid),
           ("ceph.data_device", dlv.lv_path),
           ("ceph.data_uuid", dlv.lv_uuid),
           ("ceph.type", "journal"),
           ("ceph.journal_uuid", jlv.lv_uuid),
           ("ceph.journal_device", jlv.lv_path)] ::
         Event.setLVTags dlv
          [("ceph.osd_fsid", f), ("ceph.osd_id", i),
           ("ceph.cluster_fsid", env.cluster_fsid),
           ("ceph.data_device", dlv.lv_path),
           ("ceph.data_uuid", dlv.lv_uuid),
           ("ceph.type", "journal"),
           ("ceph.journal_uuid", jlv.lv_uuid),
           ("ceph.journal_device", jlv.lv_path)] ::
         prepare_filestore env dlv.lv_path jlv.lv_path ⟨some env.fresh_key⟩
           (some i) (some f)) := by
      simp [prepare, filestore_tail, setup_device, allocate_identity,
        pyOr, pyStr, setTag, hroot, hf, hid, hi, hfs, hfne, hj, hjne,
        hdata, hjlv]
    refine ⟨?_, rfl⟩
    rw [hrun]
    simp [flushedTags, prepare_filestore, pyOr, pyStr, hi, hfne]
  · intro env args blv wlv dblv i f wn dn hroot hf hb hid hi hfs hfne hw
      hwne hdb hdne hdata hwlv hdlv
    have hrun : prepare env args =
        (.ok (), Event.setLVTags wlv
          [("ceph.osd_fsid", f), ("ceph.osd_id", i),
           ("ceph.cluster_fsid", env.cluster_fsid),
           ("ceph.block_device", blv.lv_path),
           ("ceph.block_uuid", blv.lv_uuid),
           ("ceph.type", "wal"),
           ("ceph.wal_uuid", wlv.lv_uuid),
           ("ceph.wal_device", wlv.lv_path)] ::
         Event.setLVTags dblv
          [("ceph.osd_fsid", f), ("ceph.osd_id", i),
           ("ceph.cluster_fsid", env.cluster_fsid),
           ("ceph.block_device", blv.lv_path),
           ("ceph.block_uuid", blv.lv_uuid),
           ("ceph.type", "db"),
           ("ceph.wal_uuid", wlv.lv_uuid),
           ("ceph.wal_device", wlv.lv_path),
           ("ceph.db_uuid", dblv.lv_uuid),
           ("ceph.db_device", dblv.lv_path)] ::
         Event.setLVTags blv
          [("ceph.osd_fsid", f), ("ceph.osd_id", i),
           ("ceph.cluster_fsid", env.cluster_fsid),
           ("ceph.block_device", blv.lv_path),
           ("ceph.block_uuid", blv.lv_uuid),
           ("ceph.type", "db"),
           ("ceph.wal_uuid", wlv.lv_uuid),
           ("ceph.wal_device", wlv.lv_path),
           ("ceph.db_uuid", dblv.lv_uuid),
           ("ceph.db_device", dblv.lv_path)] ::
         prepare_bluestore env blv.lv_path wlv.lv_path dblv.lv_path
           ⟨some env.fresh_key⟩ (some i) (some f)) := by
      simp [prepare, bluestore_tail, setup_device, allocate_identity,
        pyOr, pyStr, setTag, hroot, hf, hb, hid, hi, hfs, hfne, hw, hwne,
        hdb, hdne, hdata, hwlv, hdlv]
    refine ⟨?_, rfl⟩
    rw [hrun]
    by_cases hwp : wlv.lv_path = "" <;> by_cases hdp : dblv.lv_path = "" <;>
      simp [flushedTags, prepare_bluestore, pyOr, pyStr, hi, hfne, hwp, hdp]
  · intro env args blv wlv i f wn hroot hf hb hid hi hfs hfne hw hwne hdb
      hdata hwlv
    have hrun : prepare env args =
        (.ok (), Event.setLVTags wlv
          [("ceph.osd_fsid", f), ("ceph.osd_id", i),
           ("ceph.cluster_fsid", env.cluster_fsid),
           ("ceph.block_device", blv.lv_path),
           ("ceph.block_uuid", blv.lv_uuid),
           ("ceph.type", "wal"),
           ("ceph.wal_uuid", wlv.lv_uuid),
           ("ceph.wal_device", wlv.lv_path)] ::
         Event.setLVTags blv
          [("ceph.osd_fsid", f), ("ceph.osd_id", i),
           ("ceph.cluster_fsid", env.cluster_fsid),
           ("ceph.block_device", blv.lv_path),
           ("ceph.block_uuid", blv.lv_uuid),
           ("ceph.type", "wal"),
           ("ceph.wal_uuid", wlv.lv_uuid),
           ("ceph.wal_device", wlv.lv_path)] ::
         prepare_bluestore env blv.lv_path wlv.lv_path ""
           ⟨some env.fresh_key⟩ (some i) (some f)) := by
      simp [prepare, bluestore_tail, setup_device, allocate_identity,
        pyOr, pyStr, setTag, hroot, hf, hb, hid, hi, hfs, hfne, hw, hwne,
        hdb, hdata, hwlv]
    refine ⟨?_, rfl⟩
    rw [hrun]
    by_cases hwp : wlv.lv_path = "" <;>
      simp [flushedTags, prepare_bluestore, pyOr, pyStr, hi, hfne, hwp]
  · intro env args blv i f hroot hf hb hid hi hfs hfne hw hdb hdata
    have hrun : prepare env args =
        (.ok (), Event.setLVTags blv
          [("ceph.osd_fsid", f), ("ceph.osd_id", i),
           ("ceph.cluster_fsid", env.cluster_fsid),
           ("ceph.block_device", blv.lv_path),
           ("ceph.block_uuid", blv.lv_uuid)] ::
         prepare_bluestore env blv.lv_path "" ""
           ⟨some env.fresh_key⟩ (some i) (some f)) := by
      simp [prepare, bluestore_tail, setup_device, allocate_identity,
        pyOr, pyStr, hroot, hf, hb, hid, hi, hfs, hfne, hw, hdb, hdata]
    refine ⟨?_, rfl⟩
    rw [hrun]
    simp [flushedTags, prepare_bluestore, pyOr, pyStr, hi, hfne]

/-- Concrete environment for the C10 witness: data/journal volumes for the
legacy scenario and block/wal/db volumes for the modern scenarios. -/
def envC10 : Env :=
  { baseEnv with
    lvs := fun vg lv =>
      if vg = "vgd" ∧ lv = "lvd" then some ⟨"DU", "/dev/vgd/lvd"⟩
      else if vg = "vgj" ∧ lv = "lvj" then some ⟨"JU", "/dev/vgj/lvj"⟩
      else if vg = "vgb" ∧ lv = "lvb" then some ⟨"BU", "/dev/vgb/lvb"⟩
      else if vg = "vgw" ∧ lv = "lvw" then some ⟨"WU", "/dev/vgw/lvw"⟩
      else if vg = "vgz" ∧ lv = "lvz" then some ⟨"ZU", "/dev/vgz/lvz"⟩
      else none }

/-- Legacy arguments with a journal logical volume. -/
def argsC10a : Args :=
  { argsBase with
    osd_id := some "3"
    osd_fsid := some "F1"
    data := "vgd/lvd"
    journal := some "vgj/lvj" }

/-- Modern arguments with wal and db logical volumes. -/
def argsC10b : Args :=
  { argsBase with
    filestore := false
    bluestore := true
    osd_id := some "3"
    osd_fsid := some "F1"
    data := "vgb/lvb"
    block_wal := some "vgw/lvw"
    block_db := some "vgz/lvz" }

/-- Modern arguments with a wal volume and no db. -/
def argsC10c : Args :=
  { argsC10b with block_db := none }

/-- Modern arguments with neither wal nor db. -/
def argsC10d : Args :=
  { argsC10b with block_wal := none, block_db := none }

/-- C10 witness: all five conjuncts of the theorem at concrete inputs. -/
theorem C10_witness :
    lookupTag [("ceph.type", "wal"), ("ceph.wal_uuid", "WU"),
               ("ceph.wal_device", "/dev/vgw/lvw")] "ceph.type" = some "wal" ∧
    (flushedTags (prepare envC10 argsC10a).2 =
       some [("ceph.osd_fsid", "F1"), ("ceph.osd_id", "3"),
             ("ceph.cluster_fsid", "CF"),
             ("ceph.data_device", "/dev/vgd/lvd"), ("ceph.data_uuid", "DU"),
             ("ceph.type", "journal"),
             ("ceph.journal_uuid", "JU"),
             ("ceph.journal_device", "/dev/vgj/lvj")] ∧
     lookupTag [("ceph.osd_fsid", "F1"), ("ceph.osd_id", "3"),
             ("ceph.cluster_fsid", "CF"),
             ("ceph.data_device", "/dev/vgd/lvd"), ("ceph.data_uuid", "DU"),
             ("ceph.type", "journal"),
             ("ceph.journal_uuid", "JU"),
             ("ceph.journal_device", "/dev/vgj/lvj")] "ceph.type" =
       some "journal") ∧
    (flushedTags (prepare envC10 argsC10b).2 =
       some [("ceph.osd_fsid", "F1"), ("ceph.osd_id", "3"),
             ("ceph.cluster_fsid", "CF"),
             ("ceph.block_device", "/dev/vgb/lvb"), ("ceph.block_uuid", "BU"),
             ("ceph.type", "db"),
             ("ceph.wal_uuid", "WU"), ("ceph.wal_device", "/dev/vgw/lvw"),
             ("ceph.db_uuid", "ZU"), ("ceph.db_device", "/dev/vgz/lvz")] ∧
     lookupTag [("ceph.osd_fsid", "F1"), ("ceph.osd_id", "3"),
             ("ceph.cluster_fsid", "CF"),
             ("ceph.block_device", "/dev/vgb/lvb"), ("ceph.block_uuid", "BU"),
             ("ceph.type", "db"),
             ("ceph.wal_uuid", "WU"), ("ceph.wal_device", "/dev/vgw/lvw"),
             ("ceph.db_uuid", "ZU"), ("ceph.db_device", "/dev/vgz/lvz")]
       "ceph.type" = some "db") ∧
    (flushedTags (prepare envC10 argsC10c).2 =
       some [("ceph.osd_fsid", "F1"), ("ceph.osd_id", "3"),
             ("ceph.cluster_fsid", "CF"),
             ("ceph.block_device", "/dev/vgb/lvb"), ("ceph.block_uuid", "BU"),
             ("ceph.type", "wal"),
             ("ceph.wal_uuid", "WU"), ("ceph.wal_device", "/dev/vgw/lvw")] ∧
     lookupTag [("ceph.osd_fsid", "F1"), ("ceph.osd_id", "3"),
             ("ceph.cluster_fsid", "CF"),
             ("ceph.block_device", "/dev/vgb/lvb"), ("ceph.block_uuid", "BU"),
             ("ceph.type", "wal"),
             ("ceph.wal_uuid", "WU"), ("ceph.wal_device", "/dev/vgw/lvw")]
       "ceph.type" = some "wal") ∧
    (flushedTags (prepare envC10 argsC10d).2 =
       some [("ceph.osd_fsid", "F1"), ("ceph.osd_id", "3"),
             ("ceph.cluster_fsid", "CF"),
             ("ceph.block_device", "/dev/vgb/lvb"),
             ("ceph.block_uuid", "BU")] ∧
     lookupTag [("ceph.osd_fsid", "F1"), ("ceph.osd_id", "3"),
             ("ceph.cluster_fsid", "CF"),
             ("ceph.block_device", "/dev/vgb/lvb"),
             ("ceph.block_uuid", "BU")] "ceph.type" = none) :=
  ⟨C10_thm.1 envC10 "wal" "vgw/lvw" [] "/dev/vgw/lvw" "WU"
     [("ceph.type", "wal"), ("ceph.wal_uuid", "WU"),
      ("ceph.wal_device", "/dev/vgw/lvw")] rfl,
   C10_thm.2.1 envC10 argsC10a ⟨"DU", "/dev/vgd/lvd"⟩ ⟨"JU", "/dev/vgj/lvj"⟩
     "3" "F1" "vgj/lvj" rfl rfl rfl (by decide) rfl (by decide) rfl
     (by decide) rfl rfl,
   C10_thm.2.2.1 envC10 argsC10b ⟨"BU", "/dev/vgb/lvb"⟩ ⟨"WU", "/dev/vgw/lvw"⟩
     ⟨"ZU", "/dev/vgz/lvz"⟩ "3" "F1" "vgw/lvw" "vgz/lvz" rfl rfl rfl rfl
     (by decide) rfl (by decide) rfl (by decide) rfl (by decide) rfl rfl rfl,
   C10_thm.2.2.2.1 envC10 argsC10c ⟨"BU", "/dev/vgb/lvb"⟩ ⟨"WU", "/dev/vgw/lvw"⟩
     "3" "F1" "vgw/lvw" rfl rfl rfl rfl (by decide) rfl (by decide) rfl
     (by decide) rfl rfl rfl,
   C10_thm.2.2.2.2 envC10 argsC10d ⟨"BU", "/dev/vgb/lvb"⟩ "3" "F1"
     rfl rfl rfl rfl (by decide) rfl (by decide) rfl rfl rfl⟩
